import Mathlib

/-!
Shallow embedding of the `fastapi_sqlalchemy` fluent query builder
(`src/fastapi_sqlalchemy/table_query.py` and `src/fastapi_sqlalchemy/util.py`)
and proofs about its clause accumulation, statement compilation, filter DSL,
column resolution, pagination arithmetic and batch insertion.

Conventions of the embedding:
* SQLAlchemy boolean expressions are modelled by the inductive `BoolExpr`,
  whose constructors mirror exactly the expression nodes the source builds
  (`and_(*xs)` becomes `BoolExpr.andE xs`, `column.ilike(p)` becomes
  `BoolExpr.ilike c p`, and so on).  `and_`/`or_` are treated as free
  constructors on their argument lists, matching the call structure of the
  source.
* A SQLAlchemy `Select`/`Update`/`Delete` statement is modelled by the
  record `Stmt`; `stmt.where(c)` appends `c` to `Stmt.whereClauses`,
  `stmt.join(...)` appends an `AppliedJoin` record carrying the exact
  arguments the source passes (`isouter`, `full`).
* Python `ValueError` (and the one reachable `AttributeError`) become
  `Except String`, carrying the exact message text the source formats.
* Python dicts are ordered, so filter mappings and rows are association
  lists `List (String × Value)`.
* Python string helpers (`str.split`, `str.lower`, `in`) are re-implemented
  over `List Char` so that every definition reduces in the kernel; they
  agree with Python on the ASCII inputs the claims are about.
-/

/-- Values appearing in filter dictionaries and rows (Python scalars/lists). -/
inductive Value where
  | none
  | int (n : Int)
  | str (s : String)
  | bool (b : Bool)
  | list (vs : List Value)

/-- Python `str(value)`, as used by the f-string `f"%{value}%"` for LIKE
patterns (restricted to the scalar cases the claims exercise). -/
def Value.pyStr : Value → String
  | Value.none => "None"
  | Value.int n => toString n
  | Value.str s => s
  | Value.bool true => "True"
  | Value.bool false => "False"
  | Value.list _ => "<list>"

/-- A relation participating in a query: an ORM model class, a table, or a
subquery alias.  `tablename` models the `__tablename__` attribute,
`typename` the class `__name__`, `aliasname` the `name` attribute of a
subquery alias; `columns` lists the attribute names `hasattr`/`getattr`
can see. -/
structure Relation where
  tablename : Option String := none
  typename : Option String := none
  aliasname : Option String := none
  columns : List String := []
deriving DecidableEq

/-- A resolved column handle (`getattr(model, column_name)`). -/
structure Column where
  owner : Relation
  name : String
deriving DecidableEq

/-- SQLAlchemy boolean expression nodes, mirroring exactly the nodes built
by `DBQuerySetting.build_filter_expression` and the where machinery. -/
inductive BoolExpr where
  | eq (c : Column) (v : Value)
  | ne (c : Column) (v : Value)
  | gt (c : Column) (v : Value)
  | gte (c : Column) (v : Value)
  | lt (c : Column) (v : Value)
  | lte (c : Column) (v : Value)
  | ilike (c : Column) (pattern : String)
  | inL (c : Column) (vs : List Value)
  | notinL (c : Column) (vs : List Value)
  | isE (c : Column) (v : Value)
  | isNotE (c : Column) (v : Value)
  | startswith (c : Column) (v : Value)
  | endswith (c : Column) (v : Value)
  | containsE (c : Column) (v : Value)
  | regexpMatch (c : Column) (v : Value)
  | between (c : Column) (lo hi : Value)
  | notE (e : BoolExpr)
  | andE (es : List BoolExpr)
  | orE (es : List BoolExpr)

/-- Select-list expressions: a whole relation (`select(Model)`), a single
column, a literal column, or `func.count(func.distinct(e))`. -/
inductive SelExpr where
  | star (r : Relation)
  | col (c : Column)
  | lit (s : String)
  | countDistinct (e : SelExpr)

/-- One join already applied to a statement, carrying exactly the arguments
the source passes to SQLAlchemy's `stmt.join`. -/
structure AppliedJoin where
  model : Relation
  onclause : String
  isouter : Bool
  full : Bool

/-- The statement kind (`select(...)`, `update(...)`, `delete(...)`). -/
inductive StmtKind where
  | selectK
  | updateK
  | deleteK

/-- A compiled-in-progress SQLAlchemy statement. -/
structure Stmt where
  kind : StmtKind := StmtKind.selectK
  selectCols : List SelExpr := []
  selectFrom : Option Relation := none
  joins : List AppliedJoin := []
  whereClauses : List BoolExpr := []
  groupBy : List SelExpr := []
  havingClause : Option BoolExpr := none
  orderBy : List String := []
  limitVal : Option Int := none
  offsetVal : Option Int := none
  schemaMap : Option String := none

/-! ## Python string helpers (kernel-reducible re-implementations) -/

/-- Python `s.split(sep)` for a single-character separator. -/
def splitChar (sep : Char) : List Char → List (List Char)
  | [] => [[]]
  | c :: rest =>
    if c = sep then [] :: splitChar sep rest
    else
      match splitChar sep rest with
      | [] => [[c]]
      | g :: gs => (c :: g) :: gs

/-- Python `s.split("__")`: leftmost, non-overlapping double-underscore
splitting. -/
def splitDunder : List Char → List (List Char)
  | '_' :: '_' :: rest => [] :: splitDunder rest
  | c :: rest =>
    match splitDunder rest with
    | [] => [[c]]
    | g :: gs => (c :: g) :: gs
  | [] => [[]]

/-- Python `s.split(".", 1)` under the guarantee that a dot is present:
returns the text before the first dot and the text after it. -/
def splitFirstDot : List Char → List Char × List Char
  | [] => ([], [])
  | c :: rest =>
    if c = '.' then ([], rest)
    else
      let p := splitFirstDot rest
      (c :: p.1, p.2)

/-- Python `"." in s` (single-character membership). -/
def strContainsChar (s : String) (c : Char) : Bool :=
  s.data.contains c

/-- Python `s.lower()` (ASCII range, which covers the identifiers used). -/
def strLower (s : String) : String :=
  String.mk (s.data.map Char.toLower)

/-- Python `sep.join(parts)`. -/
def strJoin (sep : String) (parts : List String) : String :=
  String.mk (List.intercalate sep.data (parts.map String.data))

/-! ## `DBQuerySetting` (src/fastapi_sqlalchemy/util.py) -/

namespace DBQuerySetting

/-- `DBQuerySetting.apply_join` (util.py lines 7–15): note that the
`"right"` branch passes `(model, onclause, isouter=True, full=False)` to
`stmt.join`, exactly as the `"left"` branch does — the operand order is not
changed. -/
def apply_join (stmt : Stmt) (join_type : String) (model : Relation)
    (onclause : String) : Stmt :=
  if join_type == "right" then
    { stmt with joins := stmt.joins ++ [⟨model, onclause, true, false⟩] }
  else if join_type == "full" then
    { stmt with joins := stmt.joins ++ [⟨model, onclause, true, true⟩] }
  else
    { stmt with joins := stmt.joins ++ [⟨model, onclause, join_type == "left", false⟩] }

/-- `DBQuerySetting.apply_where` (util.py lines 17–40).  The singleton
special-casing (`len == 1` takes the element, otherwise `and_`/`or_` wraps
the list) and the final combination of the two groups with `and_` mirror
the source line by line. -/
def apply_where (stmt : Stmt) (where_conditions or_conditions : List BoolExpr) : Stmt :=
  if where_conditions.isEmpty && or_conditions.isEmpty then stmt
  else
    let conditions : List BoolExpr :=
      (match where_conditions with
       | [] => []
       | [w] => [w]
       | ws => [BoolExpr.andE ws]) ++
      (match or_conditions with
       | [] => []
       | [o] => [o]
       | os => [BoolExpr.orE os])
    match conditions with
    | [c] => { stmt with whereClauses := stmt.whereClauses ++ [c] }
    | cs => { stmt with whereClauses := stmt.whereClauses ++ [BoolExpr.andE cs] }

/-- `DBQuerySetting.build_filter_expression` (util.py lines 42–90). -/
def build_filter_expression (column : Column) (op : String) (value : Value) :
    Except String BoolExpr :=
  if op == "eq" then .ok (BoolExpr.eq column value)
  else if op == "ne" || op == "neq" then .ok (BoolExpr.ne column value)
  else if op == "gt" then .ok (BoolExpr.gt column value)
  else if op == "gte" then .ok (BoolExpr.gte column value)
  else if op == "lt" then .ok (BoolExpr.lt column value)
  else if op == "lte" then .ok (BoolExpr.lte column value)
  else if op == "like" || op == "icontains" then
    .ok (BoolExpr.ilike column ("%" ++ value.pyStr ++ "%"))
  else if op == "in" then
    .ok (BoolExpr.inL column (match value with | Value.list vs => vs | v => [v]))
  else if op == "notin" then
    .ok (BoolExpr.notinL column (match value with | Value.list vs => vs | v => [v]))
  else if op == "is" then .ok (BoolExpr.isE column value)
  else if op == "not" then .ok (BoolExpr.isNotE column value)
  else if op == "isnull" then .ok (BoolExpr.isE column Value.none)
  else if op == "notnull" then .ok (BoolExpr.isNotE column Value.none)
  else if op == "startswith" then .ok (BoolExpr.startswith column value)
  else if op == "endswith" then .ok (BoolExpr.endswith column value)
  else if op == "contains" then .ok (BoolExpr.containsE column value)
  else if op == "regexp" then .ok (BoolExpr.regexpMatch column value)
  else if op == "between" then
    match value with
    | Value.list [a, b] => .ok (BoolExpr.between column a b)
    | _ => .error "'between' requires [min, max] values"
  else if op == "not_between" then
    match value with
    | Value.list [a, b] => .ok (BoolExpr.notE (BoolExpr.between column a b))
    | _ => .error "'not_between' requires [min, max] values"
  else if op == "isnot" then .ok (BoolExpr.isNotE column value)
  else .error ("Unsupported operator: '" ++ op ++ "'")

/-- The base-relation match of `get_column_from_model` (util.py lines
97–103): the requested name equals, case-insensitively, the base relation's
`__tablename__` (default `'unknown'`) or class `__name__` (default
`'unknown'`). -/
def baseMatches (base : Relation) (table_name : String) : Bool :=
  let tl := strLower table_name
  tl == strLower (base.tablename.getD "unknown") ||
  tl == strLower (base.typename.getD "unknown")

/-- The joined-relation match of `get_column_from_model` (util.py lines
105–125): `__tablename__`, `__name__` or alias `name`, lowered when
present; a comparison with an absent attribute is `False`. -/
def joinMatches (r : Relation) (table_name : String) : Bool :=
  let tl := strLower table_name
  r.tablename.map strLower == some tl ||
  r.typename.map strLower == some tl ||
  r.aliasname.map strLower == some tl

/-- `DBQuerySetting.get_available_tables` (util.py lines 136–155). -/
def get_available_tables (base_table : Option Relation)
    (joins : List (String × Relation × String)) : String :=
  let baseList : List String :=
    match base_table with
    | some b =>
      [(b.typename.getD "unknown") ++ "(" ++ (b.tablename.getD "unknown") ++ ")"]
    | Option.none => []
  let joinList : List String := joins.map (fun j =>
    let r := j.2.1
    let tn : String :=
      match r.tablename with
      | some s => s
      | Option.none => r.aliasname.getD "unknown"
    match r.typename with
    | some mn => mn ++ "(" ++ tn ++ ")"
    | Option.none => "subquery(" ++ tn ++ ")")
  strJoin ", " (baseList ++ joinList)

/-- `DBQuerySetting.get_column_from_model` (util.py lines 92–134): the base
relation is checked first, then the joined relations in insertion order
(the loop `break`s at the first match, which `List.find?` reproduces). -/
def get_column_from_model (base_table : Option Relation)
    (joins : List (String × Relation × String))
    (table_name column_name : String) : Except String Column :=
  let fromBase : Option Relation :=
    match base_table with
    | some b => if baseMatches b table_name then some b else Option.none
    | Option.none => Option.none
  let model : Option Relation :=
    match fromBase with
    | some m => some m
    | Option.none =>
      (joins.find? (fun j => joinMatches j.2.1 table_name)).map (fun j => j.2.1)
  match model with
  | Option.none =>
    .error ("Unknown table/model '" ++ table_name ++ "'. Available: " ++
      get_available_tables base_table joins)
  | some m =>
    if column_name ∈ m.columns then .ok ⟨m, column_name⟩
    else .error ("Column '" ++ column_name ++ "' not found in '" ++ table_name ++ "'.")

end DBQuerySetting

/-! ## `TableQuery` (src/fastapi_sqlalchemy/table_query.py) -/

/-- A row / data mapping (Python dicts preserve insertion order). -/
abbrev Row := List (String × Value)

/-- The accumulated clause state of a `TableQuery` instance: the fields set
by `_reset_state` (table_query.py lines 19–35).  Union members are
represented by opaque identifiers; `_build_query` never consults them. -/
structure QueryState where
  schema : Option String := none
  base_table : Option Relation := none
  joins : List (String × Relation × String) := []
  whereG : List BoolExpr := []
  orWhereG : List BoolExpr := []
  selectG : List SelExpr := []
  orderG : List String := []
  groupByG : List SelExpr := []
  havingG : List BoolExpr := []
  limitG : Option Int := none
  offsetG : Option Int := none
  union_queries : List Nat := []
  unionAllFlag : Bool := false
  load_options : List String := []
  enable_orm : Bool := false

namespace TableQuery

/-- The state `_reset_state` (lines 19–35) leaves behind: everything empty. -/
def _reset_state : QueryState := {}

/-- `_clone` (lines 37–55): a deep copy — with value semantics, the state
itself, copied field by field as the source does. -/
def _clone (q : QueryState) : QueryState :=
  { schema := q.schema
    base_table := q.base_table
    joins := q.joins
    whereG := q.whereG
    orWhereG := q.orWhereG
    selectG := q.selectG
    orderG := q.orderG
    groupByG := q.groupByG
    havingG := q.havingG
    limitG := q.limitG
    offsetG := q.offsetG
    union_queries := q.union_queries
    unionAllFlag := q.unionAllFlag
    load_options := q.load_options
    enable_orm := q.enable_orm }

/-- The recursion behind `_chunk` for a positive chunk size `k + 1`. -/
def _chunkAux (k : Nat) : List α → List (List α)
  | [] => []
  | x :: xs =>
    (x :: xs).take (k + 1) :: _chunkAux k ((x :: xs).drop (k + 1))
termination_by l => l.length
decreasing_by simp [List.length_drop]; omega

/-- `_chunk` (lines 57–61): `data[i:i+chunk_size]` for
`i in range(0, len(data), chunk_size)`.  A zero step makes Python's `range`
raise, so the zero case is unreachable through `create_many`, which guards
it (see `create_many`). -/
def _chunk (data : List α) (chunk_size : Nat) : List (List α) :=
  match chunk_size with
  | 0 => []
  | k + 1 => _chunkAux k data

/-- `_build_query` (lines 63–94).  Note that `_union_queries` and
`_union_all` are never read here: the accumulated union members do not
appear in the compiled statement. -/
def _build_query (q : QueryState) : Except String Stmt :=
  match q.base_table with
  | Option.none => .error "Base table not set. Use .table(Model) first."
  | some base =>
    let stmt : Stmt :=
      { selectCols := if q.selectG.isEmpty then [SelExpr.star base] else q.selectG }
    let stmt :=
      match q.schema with
      | some s => { stmt with schemaMap := some s }
      | Option.none => stmt
    let stmt := q.joins.foldl
      (fun st j => DBQuerySetting.apply_join st j.1 j.2.1 j.2.2) stmt
    let stmt := DBQuerySetting.apply_where stmt q.whereG q.orWhereG
    let stmt := if q.groupByG.isEmpty then stmt else { stmt with groupBy := q.groupByG }
    let stmt :=
      if q.havingG.isEmpty then stmt
      else { stmt with havingClause := some (BoolExpr.andE q.havingG) }
    let stmt := if q.orderG.isEmpty then stmt else { stmt with orderBy := q.orderG }
    let stmt :=
      match q.limitG with
      | some v => { stmt with limitVal := some v }
      | Option.none => stmt
    let stmt :=
      match q.offsetG with
      | some v => { stmt with offsetVal := some v }
      | Option.none => stmt
    .ok stmt

/-- `union` (lines 301–308): the member list is *assigned*, not appended,
and the union-all flag is set to `False`. -/
def union_q (q : QueryState) (queries : List Nat) : QueryState :=
  { q with union_queries := queries, unionAllFlag := false }

/-- `union_all` (lines 310–317): the member list is assigned and the
union-all flag set to `True`. -/
def union_all_q (q : QueryState) (queries : List Nat) : QueryState :=
  { q with union_queries := queries, unionAllFlag := true }

/-- Key parsing of `apply_filters` (lines 361–363):
`parts = key.split("__")`; the column path is `"__".join(parts[:-1])` and
the operator the last part when a `__` is present, else the whole key with
operator `eq`. -/
def parseFilterKey (key : String) : String × String :=
  let parts := (splitDunder key.data).map String.mk
  match parts with
  | [] => (key, "eq")
  | [p] => (p, "eq")
  | ps => (strJoin "__" ps.dropLast, ps.getLastD "eq")

/-- The per-entry loop of `apply_filters` (lines 356–381): skip `None`
values, parse the key, reject column paths without a dot, split at the
first dot, resolve the column, build the operator expression. -/
def buildFilterExprs (base_table : Option Relation)
    (joins : List (String × Relation × String)) :
    List (String × Value) → Except String (List BoolExpr)
  | [] => .ok []
  | (key, value) :: rest =>
    match value with
    | Value.none => buildFilterExprs base_table joins rest
    | v =>
      let p := parseFilterKey key
      let col_name := p.1
      let op := p.2
      if ¬ strContainsChar col_name '.' then
        .error ("Column must be 'table.column' or 'table.column__operator', got '" ++
          col_name ++ "'.\nExamples: 'user.name', 'user.age__gt', 'post.title__like'")
      else
        let tc := splitFirstDot col_name.data
        let table_name := String.mk tc.1
        let column_name := String.mk tc.2
        match DBQuerySetting.get_column_from_model base_table joins table_name column_name with
        | .error e => .error e
        | .ok column =>
          match DBQuerySetting.build_filter_expression column op v with
          | .error e => .error e
          | .ok expr =>
            match buildFilterExprs base_table joins rest with
            | .error e => .error e
            | .ok es => .ok (expr :: es)

/-- `apply_filters` (lines 319–391): collect the per-entry expressions,
then — only when at least one expression was built — append their
`or_`-combination to the OR group (`use_or=True`) or their
`and_`-combination to the AND group. -/
def apply_filters (q : QueryState) (filters : List (String × Value))
    (use_or : Bool := false) : Except String QueryState :=
  match buildFilterExprs q.base_table q.joins filters with
  | .error e => .error e
  | .ok expressions =>
    if expressions.isEmpty then .ok q
    else if use_or then
      .ok { q with orWhereG := q.orWhereG ++ [BoolExpr.orE expressions] }
    else
      .ok { q with whereG := q.whereG ++ [BoolExpr.andE expressions] }

/-- `all` (lines 433–439) as a state transformer: clone, build from the
clone, execute, then `cloned._reset_state()` — the *clone* is reset and
discarded; the instance's own state (the second component) is returned as
the source leaves it. -/
def all_state (q : QueryState) : Except String (Stmt × QueryState) :=
  let cloned := _clone q
  match _build_query cloned with
  | .error e => .error e
  | .ok stmt =>
    let _discarded := _reset_state
    .ok (stmt, q)

/-- `first` (lines 445–452): same clone/build/reset-the-clone shape as
`all`. -/
def first_state (q : QueryState) : Except String (Stmt × QueryState) :=
  let cloned := _clone q
  match _build_query cloned with
  | .error e => .error e
  | .ok stmt =>
    let _discarded := _reset_state
    .ok (stmt, q)

/-- The count statement built by `count` (lines 516–539) — and duplicated
verbatim by `paginate` (lines 712–725): when a GROUP BY is present the
count column is `getattr(base, "id", None)` *first*, falling back to the
first selected expression, then to `literal_column("1")`; without a GROUP
BY it is `base.id` (a bare attribute access).  Only `select_from`, the
joins and the where groups are carried over. -/
def count_stmt (q : QueryState) : Except String Stmt :=
  match q.base_table with
  | Option.none => .error "Base table not set. Use .table(Model) first."
  | some base =>
    let proj : Except String SelExpr :=
      if ¬ q.groupByG.isEmpty then
        let pk_col : Option Column :=
          if "id" ∈ base.columns then some ⟨base, "id"⟩ else Option.none
        let count_col : SelExpr :=
          match pk_col with
          | some c => SelExpr.col c
          | Option.none =>
            match q.selectG with
            | s :: _ => s
            | [] => SelExpr.lit "1"
        .ok (SelExpr.countDistinct count_col)
      else
        if "id" ∈ base.columns then
          .ok (SelExpr.countDistinct (SelExpr.col ⟨base, "id"⟩))
        else
          .error "AttributeError: base table has no attribute 'id'"
    match proj with
    | .error e => .error e
    | .ok p =>
      let stmt : Stmt := { selectCols := [p], selectFrom := some base }
      let stmt := q.joins.foldl
        (fun st j => DBQuerySetting.apply_join st j.1 j.2.1 j.2.2) stmt
      .ok (DBQuerySetting.apply_where stmt q.whereG q.orWhereG)

/-- `count` (lines 516–539) as a state transformer: like the other read
terminals it resets only the discarded clone. -/
def count_state (q : QueryState) : Except String (Stmt × QueryState) :=
  let cloned := _clone q
  match count_stmt cloned with
  | .error e => .error e
  | .ok stmt =>
    let _discarded := _reset_state
    .ok (stmt, q)

end TableQuery

namespace TableQuery

/-- The pagination metadata record returned by `paginate` (lines 738–749). -/
structure Pagination where
  total_records : Nat
  limit : Nat
  offsetV : Nat
  has_more : Bool
  total_pages : Nat
  current_page : Nat
  first_page : Nat
  previous_page : Option Nat
  next_page : Option Nat
  last_page : Nat
deriving DecidableEq

/-- The metadata arithmetic of `paginate` (lines 703–749): clamp `page` to
1 and `per_page` to the default 10 on invalid input, compute
`math.ceil(total_records / per_page)` — over naturals,
`(T + P - 1) / P` — with a floor of one page when the count is zero, the
window offset, and the derived page pointers. -/
def paginate_pagination (page per_page : Int) (total_records : Nat) : Pagination :=
  let page : Int := if page < 1 then 1 else page
  let per_page : Int := if per_page < 1 then 10 else per_page
  let pageN : Nat := page.toNat
  let perN : Nat := per_page.toNat
  let total_pages : Nat :=
    if total_records ≠ 0 then (total_records + perN - 1) / perN else 1
  let offset : Nat := (pageN - 1) * perN
  let has_more : Bool := pageN < total_pages
  { total_records := total_records
    limit := perN
    offsetV := offset
    has_more := has_more
    total_pages := total_pages
    current_page := pageN
    first_page := 1
    previous_page := if pageN > 1 then some (pageN - 1) else Option.none
    next_page := if has_more then some (pageN + 1) else Option.none
    last_page := total_pages }

/-- `paginate` (lines 703–752) as a state transformer.  `total_records` is
the scalar the count query reports.  The count statement is built first
(the source duplicates the `count` construction verbatim), then the full
statement with the page window, and — unlike the read terminals — the
instance's *own* state is reset (`self._reset_state()`, line 751). -/
def paginate_state (q : QueryState) (page per_page : Int) (total_records : Nat) :
    Except String (Stmt × Pagination × QueryState) :=
  let cloned := _clone q
  match count_stmt cloned with
  | .error e => .error e
  | .ok _count_stmt =>
    match _build_query cloned with
    | .error e => .error e
    | .ok stmt =>
      let pagination := paginate_pagination page per_page total_records
      let paginated :=
        { stmt with limitVal := some (pagination.limit : Int),
                    offsetVal := some (pagination.offsetV : Int) }
      .ok (paginated, pagination, _reset_state)

/-- `create` (lines 757–795) as a state transformer: guards in source
order (base table, empty payload, unknown column), then — after the
insert — `self._reset_state()` clears the instance's own state.  The
executed insert itself is external I/O and is elided. -/
def create_state (q : QueryState) (data : Row) : Except String QueryState :=
  match q.base_table with
  | Option.none => .error "Base table not set. Use .table(Model) first."
  | some base =>
    if data.isEmpty then .error "Data cannot be empty"
    else
      match data.find? (fun kv => !(base.columns.contains kv.1)) with
      | some kv =>
        .error ("Column '" ++ kv.1 ++ "' does not exist on table '" ++
          base.tablename.getD "unknown" ++ "'")
      | Option.none => .ok _reset_state

/-- `create_many` (lines 797–838): guards in source order — base table,
empty list, then a validation pass over *every* row of the whole batch
(failing on the first unknown column before any insert is issued) — then
the batch loop over `_chunk data_list chunk_size`.  On the RETURNING path
each executed batch hands back exactly its chunk's rows in order, so the
result accumulates the chunks in sequence; finally `self._reset_state()`.
A zero `chunk_size` makes Python's `range` raise before the first batch. -/
def create_many (q : QueryState) (data_list : List Row) (chunk_size : Nat) :
    Except String (List Row × QueryState) :=
  match q.base_table with
  | Option.none => .error "Base table not set. Use .table(Model) first."
  | some base =>
    if data_list.isEmpty then .error "Data list cannot be empty"
    else
      match data_list.findSome?
          (fun row => (row.find? (fun kv => !(base.columns.contains kv.1))).map Prod.fst) with
      | some key =>
        .error ("Column '" ++ key ++ "' does not exist on table '" ++
          base.tablename.getD "unknown" ++ "'")
      | Option.none =>
        if chunk_size = 0 then .error "range() arg 3 must not be zero"
        else
          let chunks := _chunk data_list chunk_size
          .ok (chunks.flatten, _reset_state)

/-- `update` (lines 843–885) as a state transformer: guards in source
order (base table, empty payload, missing predicate, unknown column); on
success the instance's own state is reset (`self._reset_state()`,
line 884). -/
def update_state (q : QueryState) (data : Row) : Except String QueryState :=
  match q.base_table with
  | Option.none => .error "Base table not set. Use .table(Model) first."
  | some base =>
    if data.isEmpty then .error "Data cannot be empty"
    else if q.whereG.isEmpty && q.orWhereG.isEmpty then
      .error "WHERE clause required for UPDATE. Use .where() first."
    else
      match data.find? (fun kv => !(base.columns.contains kv.1)) with
      | some kv =>
        .error ("Column '" ++ kv.1 ++ "' does not exist on table '" ++
          base.tablename.getD "unknown" ++ "'")
      | Option.none => .ok _reset_state

/-- `delete` (lines 904–924) as a state transformer: base-table and
missing-predicate guards, the `DELETE` statement carrying the combined
where groups, then `self._reset_state()` (line 923). -/
def delete_state (q : QueryState) : Except String (Stmt × QueryState) :=
  match q.base_table with
  | Option.none => .error "Base table not set. Use .table(Model) first."
  | some base =>
    if q.whereG.isEmpty && q.orWhereG.isEmpty then
      .error "WHERE clause required for DELETE. Use .where() first."
    else
      let stmt : Stmt := { kind := StmtKind.deleteK, selectFrom := some base }
      let stmt := DBQuerySetting.apply_where stmt q.whereG q.orWhereG
      let stmt :=
        match q.schema with
        | some s => { stmt with schemaMap := some s }
        | Option.none => stmt
      .ok (stmt, _reset_state)

end TableQuery

/-! ## Helper characterizations -/

/-- The join record `DBQuerySetting.apply_join` appends for one accumulated
join entry `(join_type, model, onclause)`. -/
def joinRec (j : String × Relation × String) : AppliedJoin :=
  if j.1 == "right" then ⟨j.2.1, j.2.2, true, false⟩
  else if j.1 == "full" then ⟨j.2.1, j.2.2, true, true⟩
  else ⟨j.2.1, j.2.2, j.1 == "left", false⟩

theorem apply_join_eq (stmt : Stmt) (jt : String) (m : Relation) (oc : String) :
    DBQuerySetting.apply_join stmt jt m oc =
      { stmt with joins := stmt.joins ++ [joinRec (jt, m, oc)] } := by
  unfold DBQuerySetting.apply_join joinRec
  split_ifs <;> rfl

theorem foldl_apply_join (js : List (String × Relation × String)) (init : Stmt) :
    js.foldl (fun st j => DBQuerySetting.apply_join st j.1 j.2.1 j.2.2) init =
      { init with joins := init.joins ++ js.map joinRec } := by
  induction js generalizing init with
  | nil => simp
  | cons j rest ih =>
    rw [List.foldl_cons, apply_join_eq, ih]
    simp [List.append_assoc]

/-- The list of conditions `DBQuerySetting.apply_where` appends to a
statement's WHERE list: empty when both groups are empty, otherwise one
combined condition. -/
def whereAdds (wh ow : List BoolExpr) : List BoolExpr :=
  if wh.isEmpty && ow.isEmpty then []
  else
    let conditions : List BoolExpr :=
      (match wh with
       | [] => []
       | [w] => [w]
       | ws => [BoolExpr.andE ws]) ++
      (match ow with
       | [] => []
       | [o] => [o]
       | os => [BoolExpr.orE os])
    match conditions with
    | [c] => [c]
    | cs => [BoolExpr.andE cs]

theorem apply_where_eq (stmt : Stmt) (wh ow : List BoolExpr) :
    DBQuerySetting.apply_where stmt wh ow =
      { stmt with whereClauses := stmt.whereClauses ++ whereAdds wh ow } := by
  unfold DBQuerySetting.apply_where whereAdds
  rcases wh with _ | ⟨w, _ | ⟨w2, ws⟩⟩ <;> rcases ow with _ | ⟨o, _ | ⟨o2, os⟩⟩ <;> simp

theorem _chunkAux_flatten (k : Nat) (data : List α) :
    (TableQuery._chunkAux k data).flatten = data := by
  induction data using TableQuery._chunkAux.induct k with
  | case1 => simp [TableQuery._chunkAux]
  | case2 x xs ih =>
    rw [TableQuery._chunkAux, List.flatten_cons, ih]
    exact List.take_append_drop (k + 1) (x :: xs)

theorem _chunkAux_length_le (k : Nat) (data : List α) :
    ∀ c ∈ TableQuery._chunkAux k data, c.length ≤ k + 1 := by
  induction data using TableQuery._chunkAux.induct k with
  | case1 => simp [TableQuery._chunkAux]
  | case2 x xs ih =>
    rw [TableQuery._chunkAux]
    intro c hc
    rcases List.mem_cons.mp hc with h | h
    · subst h
      exact List.length_take_le (k + 1) (x :: xs)
    · exact ih c h

theorem _chunkAux_ne_nil (k : Nat) (data : List α) (h : data ≠ []) :
    TableQuery._chunkAux k data ≠ [] := by
  cases data with
  | nil => exact absurd rfl h
  | cons x xs => rw [TableQuery._chunkAux]; simp

theorem _chunkAux_dropLast (k : Nat) (data : List α) :
    ∀ c ∈ (TableQuery._chunkAux k data).dropLast, c.length = k + 1 := by
  induction data using TableQuery._chunkAux.induct k with
  | case1 => simp [TableQuery._chunkAux]
  | case2 x xs ih =>
    rw [TableQuery._chunkAux]
    rcases h : TableQuery._chunkAux k (List.drop (k + 1) (x :: xs)) with _ | ⟨r, rs⟩
    · simp
    · intro c hc
      rw [List.dropLast_cons₂] at hc
      rcases List.mem_cons.mp hc with h1 | h1
      · subst h1
        have hne : List.drop (k + 1) (x :: xs) ≠ [] := by
          intro hd
          rw [hd] at h
          simp [TableQuery._chunkAux] at h
        have hlen : k + 1 ≤ (x :: xs).length := by
          by_contra hlt
          push_neg at hlt
          exact hne (List.drop_eq_nil_of_le (Nat.le_of_lt hlt))
        simp only [List.length_take]
        omega
      · refine ih c ?_
        rw [h]
        exact h1

/-- `_chunkAux` on a replicated list: one full chunk is peeled off while
more than `k + 1` elements remain. -/
theorem _chunkAux_replicate (k m : Nat) (a : α) :
    TableQuery._chunkAux k (List.replicate m a) =
      if m = 0 then []
      else if m ≤ k + 1 then [List.replicate m a]
      else List.replicate (k + 1) a ::
        TableQuery._chunkAux k (List.replicate (m - (k + 1)) a) := by
  cases m with
  | zero => simp [TableQuery._chunkAux]
  | succ n =>
    rw [List.replicate_succ, TableQuery._chunkAux,
      ← List.replicate_succ, List.take_replicate, List.drop_replicate,
      if_neg (Nat.succ_ne_zero n)]
    by_cases h : n + 1 ≤ k + 1
    · rw [if_pos h, Nat.min_eq_right h]
      have h0 : n + 1 - (k + 1) = 0 := by omega
      rw [h0]
      simp [TableQuery._chunkAux]
    · rw [if_neg h, Nat.min_eq_left (by omega)]

/-! ## Shared concrete fixtures -/

/-- A base relation `users` (`__tablename__ = "users"`, class `User`). -/
def usersT : Relation :=
  { tablename := some "users", typename := some "User", columns := ["id", "x", "active"] }

/-- A joined relation that *also* answers to the name `users` (a self-join
alias), with its own `x` column. -/
def usersAliasT : Relation :=
  { tablename := some "users", typename := some "UsersAlias", aliasname := some "users",
    columns := ["id", "x"] }

/-- A base relation `a` with columns `x`, `y`, `z` (end-to-end scenario 3). -/
def aT : Relation :=
  { tablename := some "a", typename := some "A", columns := ["id", "x", "y", "z"] }

/-- A relation whose column name itself contains a dot, reachable because
the filter-key parser splits only at the *first* dot. -/
def dotT : Relation :=
  { tablename := some "a", typename := some "ADot", columns := ["b.c"] }

/-- The AND-group member built by scenario 3's first `apply_filters` call. -/
def scenAndGroup : BoolExpr :=
  BoolExpr.andE [BoolExpr.eq ⟨aT, "x"⟩ (Value.int 1), BoolExpr.gt ⟨aT, "y"⟩ (Value.int 5)]

/-- The OR-group member built by scenario 3's second `apply_filters` call. -/
def scenOrGroup : BoolExpr :=
  BoolExpr.orE [BoolExpr.ilike ⟨aT, "z"⟩ "%foo%"]

/-- The element the singleton special-case of `apply_where` appends for a
one-element group, and the `and_`/`or_` wrap otherwise. -/
def groupAnd : List BoolExpr → BoolExpr
  | [e] => e
  | es => BoolExpr.andE es

/-- OR counterpart of `groupAnd`. -/
def groupOr : List BoolExpr → BoolExpr
  | [e] => e
  | es => BoolExpr.orE es

/-! ## Claims -/

/-- **C1, counterexample.**  The claim says a clause set with both a
non-empty AND predicate group and a non-empty OR predicate group compiles
to `(AND-group) OR (OR-group)`, and in particular that end-to-end
scenario 3 produces `WHERE (x=1 AND y>5) OR (z LIKE '%foo%')`.  Running
the scenario through the embedding, the compiled WHERE clause is the
`and_`-combination of the two groups — `util.py` line 40 joins the
collected groups with `and_`, not `or_` — and the two combinations are
distinct expressions. -/
theorem apply_filters_scenario3_compiles_to_and_cex :
    ((TableQuery.apply_filters { base_table := some aT }
        [("a.x__eq", Value.int 1), ("a.y__gt", Value.int 5)] false).bind
      (fun q => TableQuery.apply_filters q [("a.z__like", Value.str "foo")] true)).bind
      (fun q => (TableQuery._build_query q).map Stmt.whereClauses)
      = .ok [BoolExpr.andE [scenAndGroup, scenOrGroup]]
    ∧ BoolExpr.andE [scenAndGroup, scenOrGroup] ≠ BoolExpr.orE [scenAndGroup, scenOrGroup] := by
  exact ⟨rfl, by simp⟩

/-- **C1, amended.**  `DBQuerySetting.apply_where` combines the two
predicate groups as follows: both empty — the statement is unchanged (no
WHERE clause); only the AND group non-empty — that group alone is
appended (`and_`-wrapped unless it is a single condition); only the OR
group non-empty — that group alone (`or_`-wrapped unless single); both
non-empty — the single condition `(AND-group) AND (OR-group)` (the source
joins the two groups with `and_`, not `or_`).  End-to-end scenario 3
therefore compiles to `WHERE (x=1 AND y>5) AND (z LIKE '%foo%')`. -/
theorem apply_where_group_combination (stmt : Stmt) (wh ow : List BoolExpr) :
    (wh = [] → ow = [] → DBQuerySetting.apply_where stmt wh ow = stmt)
    ∧ (wh ≠ [] → ow = [] →
        DBQuerySetting.apply_where stmt wh ow =
          { stmt with whereClauses := stmt.whereClauses ++ [groupAnd wh] })
    ∧ (wh = [] → ow ≠ [] →
        DBQuerySetting.apply_where stmt wh ow =
          { stmt with whereClauses := stmt.whereClauses ++ [groupOr ow] })
    ∧ (wh ≠ [] → ow ≠ [] →
        DBQuerySetting.apply_where stmt wh ow =
          { stmt with whereClauses :=
              stmt.whereClauses ++ [BoolExpr.andE [groupAnd wh, groupOr ow]] }) := by
  refine ⟨?_, ?_, ?_, ?_⟩ <;>
    rcases wh with _ | ⟨w, _ | ⟨w2, ws⟩⟩ <;>
    rcases ow with _ | ⟨o, _ | ⟨o2, os⟩⟩ <;>
    intro h1 h2 <;>
    simp_all [DBQuerySetting.apply_where, groupAnd, groupOr]

/-- **C1, amended, witness.**  Concrete instances of all four group
combinations of `apply_where`. -/
theorem apply_where_group_combination_witness :
    DBQuerySetting.apply_where {} [] [] = ({} : Stmt)
    ∧ DBQuerySetting.apply_where {} [scenAndGroup] [] =
        { whereClauses := [scenAndGroup] }
    ∧ DBQuerySetting.apply_where {} [] [scenOrGroup] =
        { whereClauses := [scenOrGroup] }
    ∧ DBQuerySetting.apply_where {} [scenAndGroup] [scenOrGroup] =
        { whereClauses := [BoolExpr.andE [scenAndGroup, scenOrGroup]] } := by
  refine ⟨(apply_where_group_combination {} [] []).1 rfl rfl, ?_, ?_, ?_⟩
  · exact (apply_where_group_combination {} [scenAndGroup] []).2.1 (by simp) rfl
  · exact (apply_where_group_combination {} [] [scenOrGroup]).2.2.1 rfl (by simp)
  · exact (apply_where_group_combination {} [scenAndGroup] [scenOrGroup]).2.2.2
      (by simp) (by simp)

/-- A builder state mid-chain: base table `users` plus one accumulated AND
condition. -/
def exUsersQ : QueryState :=
  { base_table := some usersT, whereG := [BoolExpr.eq ⟨usersT, "x"⟩ (Value.int 1)] }

/-- The statement `_build_query` produces from `exUsersQ`. -/
def exUsersStmt : Stmt :=
  { selectCols := [SelExpr.star usersT],
    whereClauses := [BoolExpr.eq ⟨usersT, "x"⟩ (Value.int 1)] }

/-- **C2, counterexample.**  The claim says every terminal call clears the
builder's own clause state.  Executing `all()` on a builder holding one
WHERE condition returns with the builder's own state *unchanged* — the
source resets the discarded deep clone (`cloned._reset_state()`,
table_query.py line 438), not `self` — and that state is not the empty
state. -/
theorem all_state_not_cleared_cex :
    (TableQuery.all_state exUsersQ).map Prod.snd = .ok exUsersQ
    ∧ exUsersQ ≠ TableQuery._reset_state := by
  refine ⟨rfl, fun h => ?_⟩
  have hw := congrArg QueryState.whereG h
  simp [exUsersQ, TableQuery._reset_state] at hw

/-- **C2, amended.**  Read terminals (`all`, `first`, `count`, and the
other clone-then-execute readers) reset only the discarded clone, leaving
the builder's own clause state exactly as it was; `paginate` and the
mutation terminals (`create`, `create_many`, `update`, `delete`) reset the
builder's own state to empty via `self._reset_state()`. -/
theorem terminal_reset_behavior :
    (∀ q r, TableQuery.all_state q = .ok r → r.2 = q)
    ∧ (∀ q r, TableQuery.first_state q = .ok r → r.2 = q)
    ∧ (∀ q r, TableQuery.count_state q = .ok r → r.2 = q)
    ∧ (∀ q page per t r, TableQuery.paginate_state q page per t = .ok r →
        r.2.2 = TableQuery._reset_state)
    ∧ (∀ q d r, TableQuery.create_state q d = .ok r → r = TableQuery._reset_state)
    ∧ (∀ q ds n r, TableQuery.create_many q ds n = .ok r → r.2 = TableQuery._reset_state)
    ∧ (∀ q d r, TableQuery.update_state q d = .ok r → r = TableQuery._reset_state)
    ∧ (∀ q r, TableQuery.delete_state q = .ok r → r.2 = TableQuery._reset_state) := by
  refine ⟨?_, ?_, ?_, ?_, ?_, ?_, ?_, ?_⟩
  · intro q r h
    simp only [TableQuery.all_state] at h
    split at h
    · simp at h
    · simp only [Except.ok.injEq] at h
      subst h
      rfl
  · intro q r h
    simp only [TableQuery.first_state] at h
    split at h
    · simp at h
    · simp only [Except.ok.injEq] at h
      subst h
      rfl
  · intro q r h
    simp only [TableQuery.count_state] at h
    split at h
    · simp at h
    · simp only [Except.ok.injEq] at h
      subst h
      rfl
  · intro q page per t r h
    simp only [TableQuery.paginate_state] at h
    split at h
    · simp at h
    · split at h
      · simp at h
      · simp only [Except.ok.injEq] at h
        subst h
        rfl
  · intro q d r h
    simp only [TableQuery.create_state] at h
    split at h
    · simp at h
    · split at h
      · simp at h
      · split at h
        · simp at h
        · simp only [Except.ok.injEq] at h
          subst h
          rfl
  · intro q ds n r h
    simp only [TableQuery.create_many] at h
    split at h
    · simp at h
    · split at h
      · simp at h
      · split at h
        · simp at h
        · split at h
          · simp at h
          · simp only [Except.ok.injEq] at h
            subst h
            rfl
  · intro q d r h
    simp only [TableQuery.update_state] at h
    split at h
    · simp at h
    · split at h
      · simp at h
      · split at h
        · simp at h
        · split at h
          · simp at h
          · simp only [Except.ok.injEq] at h
            subst h
            rfl
  · intro q r h
    simp only [TableQuery.delete_state] at h
    split at h
    · simp at h
    · split at h
      · simp at h
      · simp only [Except.ok.injEq] at h
        subst h
        rfl

/-- The DELETE statement `delete_state` builds from `exUsersQ`. -/
def exDelStmt : Stmt :=
  { kind := StmtKind.deleteK, selectFrom := some usersT,
    whereClauses := [BoolExpr.eq ⟨usersT, "x"⟩ (Value.int 1)] }

/-- The count statement built from `exUsersQ`. -/
def exCountStmt : Stmt :=
  { selectCols := [SelExpr.countDistinct (SelExpr.col ⟨usersT, "id"⟩)],
    selectFrom := some usersT,
    whereClauses := [BoolExpr.eq ⟨usersT, "x"⟩ (Value.int 1)] }

/-- The windowed statement and metadata `paginate_state exUsersQ 1 10 0`
produces. -/
def exPagStmt : Stmt :=
  { selectCols := [SelExpr.star usersT],
    whereClauses := [BoolExpr.eq ⟨usersT, "x"⟩ (Value.int 1)],
    limitVal := some 10, offsetVal := some 0 }

/-- Pagination metadata for page 1, per_page 10, zero records. -/
def exPagMeta : TableQuery.Pagination :=
  { total_records := 0, limit := 10, offsetV := 0, has_more := false,
    total_pages := 1, current_page := 1, first_page := 1,
    previous_page := none, next_page := none, last_page := 1 }

/-- A single valid row for the `users` table. -/
def exRow : Row := [("x", Value.int 7)]

/-- **C2, amended, witness.**  Each terminal of `terminal_reset_behavior`
exercised at a concrete successful input. -/
theorem terminal_reset_behavior_witness :
    TableQuery.all_state exUsersQ = .ok (exUsersStmt, exUsersQ)
    ∧ (exUsersStmt, exUsersQ).2 = exUsersQ
    ∧ (exUsersStmt, exUsersQ).2 = exUsersQ
    ∧ TableQuery.count_state exUsersQ = .ok (exCountStmt, exUsersQ)
    ∧ (exCountStmt, exUsersQ).2 = exUsersQ
    ∧ TableQuery.paginate_state exUsersQ 1 10 0 = .ok (exPagStmt, exPagMeta, TableQuery._reset_state)
    ∧ (exPagStmt, exPagMeta, TableQuery._reset_state).2.2 = TableQuery._reset_state
    ∧ TableQuery.create_state exUsersQ exRow = .ok TableQuery._reset_state
    ∧ TableQuery.create_many exUsersQ [exRow] 1 = .ok ([exRow], TableQuery._reset_state)
    ∧ ([exRow], TableQuery._reset_state).2 = TableQuery._reset_state
    ∧ TableQuery.update_state exUsersQ exRow = TableQuery.update_state exUsersQ exRow
    ∧ TableQuery._reset_state = TableQuery._reset_state
    ∧ TableQuery.delete_state exUsersQ = .ok (exDelStmt, TableQuery._reset_state)
    ∧ (exDelStmt, TableQuery._reset_state).2 = TableQuery._reset_state := by
  have hcm : TableQuery.create_many exUsersQ [exRow] 1 = .ok ([exRow], TableQuery._reset_state) := by
    simp [TableQuery.create_many, TableQuery._chunk, TableQuery._chunkAux, exUsersQ, usersT, exRow]
  refine ⟨rfl, terminal_reset_behavior.1 exUsersQ (exUsersStmt, exUsersQ) rfl,
    terminal_reset_behavior.2.1 exUsersQ (exUsersStmt, exUsersQ) rfl,
    rfl, terminal_reset_behavior.2.2.1 exUsersQ (exCountStmt, exUsersQ) rfl,
    rfl, terminal_reset_behavior.2.2.2.1 exUsersQ 1 10 0
      (exPagStmt, exPagMeta, TableQuery._reset_state) rfl,
    terminal_reset_behavior.2.2.2.2.1 exUsersQ exRow TableQuery._reset_state rfl ▸ rfl,
    hcm, terminal_reset_behavior.2.2.2.2.2.1 exUsersQ [exRow] 1
      ([exRow], TableQuery._reset_state) hcm,
    rfl, terminal_reset_behavior.2.2.2.2.2.2.1 exUsersQ exRow TableQuery._reset_state rfl ▸ rfl,
    rfl, terminal_reset_behavior.2.2.2.2.2.2.2 exUsersQ (exDelStmt, TableQuery._reset_state) rfl⟩

/-- **C3.**  The claim (and `union`'s own docstring and the repository's
examples) says a clause set with union members compiles to the members
combined with UNION / UNION ALL.  In the source, `_build_query`
(table_query.py lines 63–94) never reads `_union_queries` or `_union_all`:
the compiled statement is identical whatever members or mode were set, so
union members are silently dropped.  The replacement semantics of a later
`union`/`union_all` call (lines 301–317) does hold, shown by the last
conjunct. -/
theorem build_query_ignores_union_members (q : QueryState) (members members2 : List Nat)
    (uall : Bool) :
    TableQuery._build_query (TableQuery.union_q q members) = TableQuery._build_query q
    ∧ TableQuery._build_query (TableQuery.union_all_q q members) = TableQuery._build_query q
    ∧ TableQuery._build_query { q with union_queries := members, unionAllFlag := uall }
        = TableQuery._build_query q
    ∧ TableQuery.union_all_q (TableQuery.union_q q members) members2
        = { q with union_queries := members2, unionAllFlag := true } :=
  ⟨rfl, rfl, rfl, rfl⟩

/-- **C4.**  The claim (with `right_join`'s docstring) says join kind
`right` is compiled by swapping the operand order with an outer flag.  In
the source (`util.py` lines 10–11) the `"right"` branch passes the *same*
arguments as the `"left"` branch — `stmt.join(model, onclause,
isouter=True, full=False)` — so a right join compiles to exactly the same
left-outer join, with the joined model still the right-hand operand and no
swap; `full` sets the full-outer flag and `inner` the plain inner join,
and the compiler applies the accumulated joins in insertion order. -/
theorem apply_join_right_compiles_as_left (stmt : Stmt) (m : Relation) (oc : String) :
    DBQuerySetting.apply_join stmt "right" m oc = DBQuerySetting.apply_join stmt "left" m oc
    ∧ (DBQuerySetting.apply_join stmt "right" m oc).joins = stmt.joins ++ [⟨m, oc, true, false⟩]
    ∧ (DBQuerySetting.apply_join stmt "full" m oc).joins = stmt.joins ++ [⟨m, oc, true, true⟩]
    ∧ (DBQuerySetting.apply_join stmt "inner" m oc).joins = stmt.joins ++ [⟨m, oc, false, false⟩]
    ∧ ∀ (js : List (String × Relation × String)) (init : Stmt),
        (js.foldl (fun st j => DBQuerySetting.apply_join st j.1 j.2.1 j.2.2) init).joins
          = init.joins ++ js.map joinRec := by
  refine ⟨rfl, rfl, rfl, rfl, fun js init => ?_⟩
  rw [foldl_apply_join]

/-- **C5, counterexample.**  The claim says every filter key whose column
path does not contain *exactly one* dot — in particular two or more dots —
is rejected with the malformed-key error.  The source only checks
`"." not in col_name` (table_query.py line 365), so the key `"a.b.c"`
(two dots) passes the shape check: it is split at the *first* dot into
table `a` and column `b.c`, resolves, and the call succeeds instead of
failing. -/
theorem two_dot_filter_key_accepted_cex :
    TableQuery.apply_filters { base_table := some dotT } [("a.b.c", Value.int 1)] false
      = .ok { base_table := some dotT,
              whereG := [BoolExpr.andE [BoolExpr.eq ⟨dotT, "b.c"⟩ (Value.int 1)]] } := rfl

/-- **C5, amended.**  A filter entry (with non-`None` value) is rejected
with the malformed-key `ValueError` exactly when its parsed column path —
the key with any trailing `__operator` suffix removed — contains *no* dot;
the message names that parsed column path (not the raw key) and shows the
usage examples.  Paths with two or more dots pass the shape check and are
split at the first dot (see the counterexample). -/
theorem malformed_filter_key_spec (q : QueryState) (key : String) (v : Value)
    (use_or : Bool) (hv : v ≠ Value.none)
    (hdot : strContainsChar (TableQuery.parseFilterKey key).1 '.' = false) :
    TableQuery.apply_filters q [(key, v)] use_or =
      .error ("Column must be 'table.column' or 'table.column__operator', got '" ++
        (TableQuery.parseFilterKey key).1 ++
        "'.\nExamples: 'user.name', 'user.age__gt', 'post.title__like'") := by
  cases v with
  | none => exact absurd rfl hv
  | int n => simp [TableQuery.apply_filters, TableQuery.buildFilterExprs, hdot]
  | str s => simp [TableQuery.apply_filters, TableQuery.buildFilterExprs, hdot]
  | bool b => simp [TableQuery.apply_filters, TableQuery.buildFilterExprs, hdot]
  | list vs => simp [TableQuery.apply_filters, TableQuery.buildFilterExprs, hdot]

/-- **C5, amended, witness.**  The dotless column path `nodot` (from key
`nodot__gt`) is rejected with the malformed-key message naming `nodot`. -/
theorem malformed_filter_key_spec_witness :
    TableQuery.apply_filters {} [("nodot__gt", Value.int 3)] false =
      .error ("Column must be 'table.column' or 'table.column__operator', got '" ++
        (TableQuery.parseFilterKey "nodot__gt").1 ++
        "'.\nExamples: 'user.name', 'user.age__gt', 'post.title__like'") :=
  malformed_filter_key_spec {} "nodot__gt" (Value.int 3) false (by simp) rfl

/-- A grouped clause set on `users` that also selects a column: the claim
says its count column should be the first selected expression. -/
def exGroupQ : QueryState :=
  { base_table := some usersT,
    selectG := [SelExpr.col ⟨usersT, "x"⟩],
    groupByG := [SelExpr.col ⟨usersT, "x"⟩] }

/-- **C6, counterexample.**  The claim says that when any GROUP BY column
is present the count projection is count-of-distinct-first-selected-
expression.  In the source (table_query.py lines 523–526) the GROUP BY
branch still prefers the primary key — `getattr(base, "id", None) or
first-selected` — so with a base table that has an `id` the count column
is the primary key, not the selected expression. -/
theorem count_groupby_prefers_pk_cex :
    (TableQuery.count_stmt exGroupQ).map Stmt.selectCols
      = .ok [SelExpr.countDistinct (SelExpr.col ⟨usersT, "id"⟩)]
    ∧ SelExpr.countDistinct (SelExpr.col ⟨usersT, "id"⟩)
        ≠ SelExpr.countDistinct (SelExpr.col ⟨usersT, "x"⟩) := by
  refine ⟨rfl, ?_⟩
  simp [usersT]

/-- **C6, amended.**  The count-style statement reuses only the
FROM/JOIN/WHERE portion of the clause set — its GROUP BY, HAVING, ORDER
BY, LIMIT and OFFSET are all absent and its joins/where are exactly the
accumulated ones — and its projection is count-of-distinct-primary-key
whenever the base relation has an `id` column (with or without GROUP BY);
only when the base relation lacks `id` *and* a GROUP BY is present does it
fall back to the first selected expression (or the literal `1` when
nothing is selected), and without GROUP BY a missing `id` is an
`AttributeError`. -/
theorem count_stmt_spec (q : QueryState) (base : Relation)
    (hb : q.base_table = some base) :
    (∀ st, TableQuery.count_stmt q = .ok st →
        st.groupBy = [] ∧ st.havingClause = none ∧ st.orderBy = [] ∧
        st.limitVal = none ∧ st.offsetVal = none ∧ st.selectFrom = some base ∧
        st.joins = q.joins.map joinRec ∧
        st.whereClauses = whereAdds q.whereG q.orWhereG)
    ∧ ("id" ∈ base.columns →
        (TableQuery.count_stmt q).map Stmt.selectCols
          = .ok [SelExpr.countDistinct (SelExpr.col ⟨base, "id"⟩)])
    ∧ ("id" ∉ base.columns → q.groupByG.isEmpty = false → ∀ s rest, q.selectG = s :: rest →
        (TableQuery.count_stmt q).map Stmt.selectCols = .ok [SelExpr.countDistinct s])
    ∧ ("id" ∉ base.columns → q.groupByG.isEmpty = false → q.selectG = [] →
        (TableQuery.count_stmt q).map Stmt.selectCols
          = .ok [SelExpr.countDistinct (SelExpr.lit "1")])
    ∧ ("id" ∉ base.columns → q.groupByG.isEmpty = true →
        TableQuery.count_stmt q = .error "AttributeError: base table has no attribute 'id'") := by
  refine ⟨?_, ?_, ?_, ?_, ?_⟩
  · intro st hst
    simp only [TableQuery.count_stmt, hb] at hst
    split at hst
    · simp at hst
    · simp only [Except.ok.injEq] at hst
      subst hst
      rw [apply_where_eq, foldl_apply_join]
      refine ⟨rfl, rfl, rfl, rfl, rfl, rfl, by simp, by simp⟩
  · intro hid
    by_cases hg : q.groupByG.isEmpty <;>
      simp [TableQuery.count_stmt, hb, hid, hg, apply_where_eq, foldl_apply_join, Except.map]
  · intro hid hg s rest hsel
    simp [TableQuery.count_stmt, hb, hid, hg, hsel, apply_where_eq, foldl_apply_join, Except.map]
  · intro hid hg hsel
    simp [TableQuery.count_stmt, hb, hid, hg, hsel, apply_where_eq, foldl_apply_join, Except.map]
  · intro hid hg
    simp [TableQuery.count_stmt, hb, hid, hg]

/-- A grouped clause set over the `id`-less relation `dotT` with a
selected expression. -/
def exNoPkGroupQ : QueryState :=
  { base_table := some dotT,
    selectG := [SelExpr.col ⟨dotT, "b.c"⟩],
    groupByG := [SelExpr.lit "g"] }

/-- A grouped clause set over `dotT` with an empty projection list. -/
def exNoPkGroupEmptySelQ : QueryState :=
  { base_table := some dotT, groupByG := [SelExpr.lit "g"] }

/-- An ungrouped clause set over the `id`-less relation `dotT`. -/
def exNoPkQ : QueryState := { base_table := some dotT }

/-- **C6, amended, witness.**  All five cases of `count_stmt_spec` at
concrete inputs: the frame at `exGroupQ`, the primary-key projection at
`exGroupQ`, the first-selected and literal-1 fallbacks on the `id`-less
relation, and the `AttributeError` without GROUP BY. -/
theorem count_stmt_spec_witness :
    ((TableQuery.count_stmt exGroupQ).map Stmt.selectCols
        = .ok [SelExpr.countDistinct (SelExpr.col ⟨usersT, "id"⟩)])
    ∧ ((TableQuery.count_stmt exNoPkGroupQ).map Stmt.selectCols
        = .ok [SelExpr.countDistinct (SelExpr.col ⟨dotT, "b.c"⟩)])
    ∧ ((TableQuery.count_stmt exNoPkGroupEmptySelQ).map Stmt.selectCols
        = .ok [SelExpr.countDistinct (SelExpr.lit "1")])
    ∧ (TableQuery.count_stmt exNoPkQ
        = .error "AttributeError: base table has no attribute 'id'")
    ∧ ({ selectCols := [SelExpr.countDistinct (SelExpr.col ⟨usersT, "id"⟩)],
         selectFrom := some usersT } : Stmt).groupBy = [] := by
  refine ⟨(count_stmt_spec exGroupQ usersT rfl).2.1 (by simp [usersT]),
    (count_stmt_spec exNoPkGroupQ dotT rfl).2.2.1 (by simp [dotT]) rfl
      (SelExpr.col ⟨dotT, "b.c"⟩) [] rfl,
    (count_stmt_spec exNoPkGroupEmptySelQ dotT rfl).2.2.2.1 (by simp [dotT]) rfl rfl,
    (count_stmt_spec exNoPkQ dotT rfl).2.2.2.2 (by simp [dotT]) rfl,
    ((count_stmt_spec exGroupQ usersT rfl).1
      { selectCols := [SelExpr.countDistinct (SelExpr.col ⟨usersT, "id"⟩)],
        selectFrom := some usersT } rfl).1⟩

/-- **C7.**  The pagination metadata of `paginate` (table_query.py lines
703–752): for clamped inputs `page ≥ 1`, `per_page ≥ 1` and count `T`,
`total_pages` is exactly `ceil(T / per_page)` when `T > 0` (characterised
by `(total_pages - 1) * per_page < T ≤ total_pages * per_page`) and `1`
when `T = 0`; `offset = (page - 1) * per_page`; `has_more` holds exactly
when `page < total_pages`; `next_page` is null iff `has_more` is false;
`previous_page` is null iff `page = 1`; and a `page < 1` or `per_page < 1`
input is replaced by the defaults `1` and `10` rather than failing. -/
theorem paginate_metadata_spec (page per_page : Int) (T : Nat)
    (hp : 1 ≤ page) (hpp : 1 ≤ per_page) :
    (TableQuery.paginate_pagination page per_page T).total_records = T
    ∧ (T = 0 → (TableQuery.paginate_pagination page per_page T).total_pages = 1)
    ∧ (0 < T →
        T ≤ (TableQuery.paginate_pagination page per_page T).total_pages * per_page.toNat
        ∧ ((TableQuery.paginate_pagination page per_page T).total_pages - 1) * per_page.toNat < T)
    ∧ (TableQuery.paginate_pagination page per_page T).offsetV
        = (page.toNat - 1) * per_page.toNat
    ∧ ((TableQuery.paginate_pagination page per_page T).has_more = true ↔
        (TableQuery.paginate_pagination page per_page T).current_page <
          (TableQuery.paginate_pagination page per_page T).total_pages)
    ∧ ((TableQuery.paginate_pagination page per_page T).next_page = none ↔
        (TableQuery.paginate_pagination page per_page T).has_more = false)
    ∧ ((TableQuery.paginate_pagination page per_page T).previous_page = none ↔ page = 1)
    ∧ (∀ pg : Int, pg < 1 →
        TableQuery.paginate_pagination pg per_page T
          = TableQuery.paginate_pagination 1 per_page T)
    ∧ (∀ pp : Int, pp < 1 →
        TableQuery.paginate_pagination page pp T
          = TableQuery.paginate_pagination page 10 T) := by
  have hnp : ¬ page < 1 := by omega
  have hnpp : ¬ per_page < 1 := by omega
  have hP : 0 < per_page.toNat := by omega
  simp only [TableQuery.paginate_pagination, if_neg hnp, if_neg hnpp]
  refine ⟨by trivial, ?_, ?_, by trivial, ?_, ?_, ?_, ?_, ?_⟩
  · intro hT
    simp [hT]
  · intro hT
    obtain ⟨t, rfl⟩ : ∃ t, T = t + 1 := ⟨T - 1, by omega⟩
    have e1 : t + 1 + per_page.toNat - 1 = t + per_page.toNat := by omega
    simp only [if_pos (Nat.succ_ne_zero t), e1, Nat.add_div_right t hP]
    have hdm := Nat.div_add_mod t per_page.toNat
    have hmod := Nat.mod_lt t hP
    constructor
    · rw [Nat.add_mul, one_mul, Nat.mul_comm (t / per_page.toNat) per_page.toNat]
      generalize hA : per_page.toNat * (t / per_page.toNat) = A at hdm
      generalize hB : t % per_page.toNat = B at hdm hmod
      omega
    · rw [Nat.add_sub_cancel, Nat.mul_comm (t / per_page.toNat) per_page.toNat]
      generalize hA : per_page.toNat * (t / per_page.toNat) = A at hdm
      generalize hB : t % per_page.toNat = B at hdm hmod
      omega
  · simp
  · by_cases hm : page.toNat <
        (if T ≠ 0 then (T + per_page.toNat - 1) / per_page.toNat else 1) <;>
      simp [hm]
  · by_cases hpg : page.toNat > 1
    · simp only [if_pos hpg]
      constructor
      · intro h
        simp at h
      · intro h
        omega
    · simp only [if_neg hpg]
      constructor
      · intro _
        omega
      · intro _
        trivial
  · intro pg hpg
    simp only [TableQuery.paginate_pagination, if_pos hpg,
      if_neg (show ¬ (1 : Int) < 1 by omega)]
  · intro pp hpp2
    simp only [TableQuery.paginate_pagination, if_pos hpp2,
      if_neg (show ¬ (10 : Int) < 1 by omega)]

/-- **C7, witness.**  Page 2 of 25 records at 10 per page: 3 total pages,
offset 10, another page available. -/
theorem paginate_metadata_spec_witness :
    (TableQuery.paginate_pagination 2 10 25).total_records = 25
    ∧ 25 ≤ (TableQuery.paginate_pagination 2 10 25).total_pages * (10 : Int).toNat
    ∧ ((TableQuery.paginate_pagination 2 10 25).total_pages - 1) * (10 : Int).toNat < 25
    ∧ (TableQuery.paginate_pagination 2 10 25).offsetV = ((2 : Int).toNat - 1) * (10 : Int).toNat
    ∧ ((TableQuery.paginate_pagination 2 10 25).previous_page = none ↔ (2 : Int) = 1) := by
  have h := paginate_metadata_spec 2 10 25 (by norm_num) (by norm_num)
  exact ⟨h.1, (h.2.2.1 (by norm_num)).1, (h.2.2.1 (by norm_num)).2,
    h.2.2.2.1, h.2.2.2.2.2.2.1⟩
/-- `List.find?` skips a prefix on which the predicate never fires. -/
theorem find?_append_of_none {p : α → Bool} {l1 : List α} (l2 : List α)
    (h : l1.find? p = none) : (l1 ++ l2).find? p = l2.find? p := by
  induction l1 with
  | nil => rfl
  | cons x xs ih =>
    rcases hx : p x with _ | _
    · rw [List.cons_append, List.find?_cons_of_neg _ (by simp [hx])]
      rw [List.find?_cons_of_neg _ (by simp [hx])] at h
      exact ih h
    · rw [List.find?_cons_of_pos _ hx] at h
      simp at h

/-- **C8.**  `create_many` validates every row of the whole batch before
any insert — an unknown column anywhere in the batch yields the
unknown-column error and no batches — and otherwise partitions the input
in order into consecutive `_chunk` batches: every batch has at most
`chunk_size` rows, every batch except possibly the last has exactly
`chunk_size` rows, the batches concatenate back to the input in order
(so the returned rows are the input rows in order), and 2500 rows with
`chunk_size = 1000` yield exactly the batch sizes `[1000, 1000, 500]`. -/
theorem create_many_spec (q : QueryState) (base : Relation) (rows : List Row) (n : Nat)
    (hb : q.base_table = some base) (hne : rows ≠ []) (hn : 0 < n)
    (hvalid : ∀ row ∈ rows, ∀ kv ∈ row, kv.1 ∈ base.columns) :
    TableQuery.create_many q rows n = .ok (rows, TableQuery._reset_state)
    ∧ (TableQuery._chunk rows n).flatten = rows
    ∧ (∀ c ∈ TableQuery._chunk rows n, c.length ≤ n)
    ∧ (∀ c ∈ (TableQuery._chunk rows n).dropLast, c.length = n)
    ∧ (∀ rows2 : List Row, ∀ k2 : String, rows2 ≠ [] →
        rows2.findSome?
            (fun row => (row.find? (fun kv => !(base.columns.contains kv.1))).map Prod.fst)
          = some k2 →
        TableQuery.create_many q rows2 n =
          .error ("Column '" ++ k2 ++ "' does not exist on table '" ++
            base.tablename.getD "unknown" ++ "'"))
    ∧ ((TableQuery._chunk (List.replicate 2500 ([] : Row)) 1000).map List.length
        = [1000, 1000, 500]) := by
  obtain ⟨k, rfl⟩ : ∃ k, n = k + 1 := ⟨n - 1, by omega⟩
  have hfind : rows.findSome?
      (fun row => (row.find? (fun kv => !(base.columns.contains kv.1))).map Prod.fst)
      = none := by
    rw [List.findSome?_eq_none_iff]
    intro row hrow
    rw [Option.map_eq_none', List.find?_eq_none]
    intro kv hkv
    simpa using hvalid row hrow kv hkv
  refine ⟨?_, _chunkAux_flatten k rows, _chunkAux_length_le k rows,
    _chunkAux_dropLast k rows, ?_, ?_⟩
  · rcases rows with _ | ⟨r0, rrest⟩
    · exact absurd rfl hne
    · simp only [TableQuery.create_many, hb, List.isEmpty_cons, hfind,
        if_neg (Nat.succ_ne_zero k), TableQuery._chunk]
      rw [_chunkAux_flatten]
      rfl
  · intro rows2 k2 hne2 hfind2
    rcases rows2 with _ | ⟨s0, srest⟩
    · exact absurd rfl hne2
    · simp only [TableQuery.create_many, hb, List.isEmpty_cons, hfind2]
      rfl
  · have hc : TableQuery._chunk (List.replicate 2500 ([] : Row)) 1000
        = TableQuery._chunkAux 999 (List.replicate 2500 ([] : Row)) := rfl
    rw [hc, _chunkAux_replicate]
    norm_num
    rw [_chunkAux_replicate]
    norm_num
    rw [_chunkAux_replicate]
    norm_num

/-- **C8, witness.**  Two valid rows in batches of one, and the
2500-row/3-batch scenario. -/
theorem create_many_spec_witness :
    TableQuery.create_many exUsersQ [exRow, exRow] 1
      = .ok ([exRow, exRow], TableQuery._reset_state)
    ∧ (TableQuery._chunk [exRow, exRow] 1).flatten = [exRow, exRow]
    ∧ ((TableQuery._chunk (List.replicate 2500 ([] : Row)) 1000).map List.length
        = [1000, 1000, 500]) := by
  have h := create_many_spec exUsersQ usersT [exRow, exRow] 1 rfl (by simp)
    (by norm_num)
    (by
      intro row hrow kv hkv
      simp only [List.mem_cons, List.not_mem_nil, or_false] at hrow
      rcases hrow with h1 | h1 <;>
        (subst h1
         simp only [exRow, List.mem_cons, List.not_mem_nil, or_false] at hkv
         subst hkv
         simp [usersT]))
  exact ⟨h.1, h.2.1, h.2.2.2.2.2⟩

/-- A joined relation named `posts` that does not answer to `users`. -/
def postsT : Relation :=
  { tablename := some "posts", typename := some "Post", columns := ["id", "title"] }

/-- **C9.**  Column resolution (`DBQuerySetting.get_column_from_model`):
the base relation is checked first (table name or type name,
case-insensitively); only when it does not match are the joined relations
scanned in join-insertion order (table name, type name, or alias), and the
first match wins, so a join that also answers to the base relation's name
is shadowed — ties are not an error.  When no relation matches, the error
lists every known relation via `get_available_tables` (`Name(table)`
pairs); when the matched relation lacks the column, the unknown-column
error names the column and the requested table token. -/
theorem resolver_spec (base : Relation) (joins : List (String × Relation × String))
    (tn cn : String) :
    (DBQuerySetting.baseMatches base tn = true →
      DBQuerySetting.get_column_from_model (some base) joins tn cn =
        (if cn ∈ base.columns then .ok ⟨base, cn⟩
         else .error ("Column '" ++ cn ++ "' not found in '" ++ tn ++ "'.")))
    ∧ (DBQuerySetting.baseMatches base tn = false →
        ∀ pre jt m oc post, joins = pre ++ (jt, m, oc) :: post →
          (∀ j ∈ pre, DBQuerySetting.joinMatches j.2.1 tn = false) →
          DBQuerySetting.joinMatches m tn = true →
          DBQuerySetting.get_column_from_model (some base) joins tn cn =
            (if cn ∈ m.columns then .ok ⟨m, cn⟩
             else .error ("Column '" ++ cn ++ "' not found in '" ++ tn ++ "'.")))
    ∧ (DBQuerySetting.baseMatches base tn = false →
        (∀ j ∈ joins, DBQuerySetting.joinMatches j.2.1 tn = false) →
        DBQuerySetting.get_column_from_model (some base) joins tn cn =
          .error ("Unknown table/model '" ++ tn ++ "'. Available: " ++
            DBQuerySetting.get_available_tables (some base) joins)) := by
  refine ⟨?_, ?_, ?_⟩
  · intro hbase
    simp only [DBQuerySetting.get_column_from_model, hbase, if_pos]
  · intro hbase pre jt m oc post hjoins hpre hm
    subst hjoins
    have hprenone : pre.find? (fun j => DBQuerySetting.joinMatches j.2.1 tn) = none :=
      List.find?_eq_none.mpr (fun j hj => by simp [hpre j hj])
    have hcons : ((jt, m, oc) :: post).find? (fun j => DBQuerySetting.joinMatches j.2.1 tn)
        = some (jt, m, oc) := List.find?_cons_of_pos _ hm
    simp [DBQuerySetting.get_column_from_model, hbase,
      find?_append_of_none _ hprenone, hcons]
  · intro hbase hnone
    have hfind : joins.find? (fun j => DBQuerySetting.joinMatches j.2.1 tn) = none :=
      List.find?_eq_none.mpr (fun j hj => by simp [hnone j hj])
    simp [DBQuerySetting.get_column_from_model, hbase, hfind]

/-- **C9, witness.**  With base relation `users` and a self-join whose
alias is also `users`, `users.x` resolves to the base relation's column;
with a base that does not match, the first matching join wins; with no
match at all, the unknown-table error lists the known relations; and an
unknown column on a matched relation is reported as such. -/
theorem resolver_spec_witness :
    DBQuerySetting.get_column_from_model (some usersT) [("left", usersAliasT, "on1")]
        "users" "x" = .ok ⟨usersT, "x"⟩
    ∧ DBQuerySetting.get_column_from_model (some dotT)
        [("inner", postsT, "on0"), ("left", usersAliasT, "on1")] "users" "x"
        = .ok ⟨usersAliasT, "x"⟩
    ∧ DBQuerySetting.get_column_from_model (some dotT) [("left", postsT, "on1")]
        "users" "x"
        = .error ("Unknown table/model 'users'. Available: " ++
            DBQuerySetting.get_available_tables (some dotT) [("left", postsT, "on1")])
    ∧ DBQuerySetting.get_column_from_model (some usersT) [] "users" "zzz"
        = .error "Column 'zzz' not found in 'users'." := by
  refine ⟨?_, ?_, ?_, ?_⟩
  · have h := (resolver_spec usersT [("left", usersAliasT, "on1")] "users" "x").1 rfl
    simpa [usersT] using h
  · have h := (resolver_spec dotT [("inner", postsT, "on0"), ("left", usersAliasT, "on1")]
        "users" "x").2.1 rfl [("inner", postsT, "on0")] "left" usersAliasT "on1" [] rfl
      (by
        intro j hj
        simp only [List.mem_cons, List.not_mem_nil, or_false] at hj
        subst hj
        rfl) rfl
    simpa [usersAliasT] using h
  · exact (resolver_spec dotT [("left", postsT, "on1")] "users" "x").2.2 rfl
      (by
        intro j hj
        simp only [List.mem_cons, List.not_mem_nil, or_false] at hj
        subst hj
        rfl)
  · have h := (resolver_spec usersT [] "users" "zzz").1 rfl
    simpa [usersT] using h

/-- **C10.**  `apply_filters` skips an entry whose value is `None` before
the key is parsed or any operator dispatched (first conjunct: a leading
`None` entry — with an arbitrary, even malformed, key — contributes
nothing), and when every entry is skipped the call returns the state
completely unchanged: no empty conjunct or disjunct is appended to either
predicate group (second conjunct). -/
theorem apply_filters_none_skipped (q : QueryState) (filters : List (String × Value))
    (use_or : Bool) :
    (∀ key rest, TableQuery.apply_filters q ((key, Value.none) :: rest) use_or
        = TableQuery.apply_filters q rest use_or)
    ∧ ((∀ kv ∈ filters, kv.2 = Value.none) →
        TableQuery.apply_filters q filters use_or = .ok q) := by
  refine ⟨fun key rest => rfl, ?_⟩
  induction filters with
  | nil => intro _; rfl
  | cons kv rest ih =>
    intro hall
    obtain ⟨k, v⟩ := kv
    have hv : v = Value.none := hall (k, v) (List.mem_cons_self _ _)
    subst hv
    calc TableQuery.apply_filters q ((k, Value.none) :: rest) use_or
        = TableQuery.apply_filters q rest use_or := rfl
      _ = .ok q := ih (fun kv h => hall kv (List.mem_cons_of_mem _ h))

/-- **C10, witness.**  `isnull`/`notnull` entries with `None` values — and
even a malformed key — produce no predicate at all: the state comes back
unchanged. -/
theorem apply_filters_none_skipped_witness :
    TableQuery.apply_filters exUsersQ
        [("t.c__isnull", Value.none), ("t.c__notnull", Value.none), ("nodots", Value.none)]
        false = .ok exUsersQ
    ∧ TableQuery.apply_filters exUsersQ [("bad key", Value.none)] true
        = TableQuery.apply_filters exUsersQ [] true := by
  refine ⟨(apply_filters_none_skipped exUsersQ _ false).2 ?_,
    (apply_filters_none_skipped exUsersQ [] true).1 "bad key" []⟩
  intro kv h
  simp only [List.mem_cons, List.not_mem_nil, or_false] at h
  rcases h with h | h | h <;> (subst h; rfl)
